import Mathlib

/-!
Verification development for `homeassistant/util/unit_system.py`.

The unit-system module stores a chosen unit per measurement category,
validates the seven unit choices at construction time, delegates numeric
conversions to external per-category converters, exposes a dictionary
export, a key-based lookup of the two canonical bundles, and a
key-normalization validator.

Pure functions of the source are translated to Lean functions; Python
exceptions become `Except`; the external diagnostics sink becomes an
explicit list of emitted notices; the external converters become an
explicit record of opaque conversion functions passed as a parameter.
-/

/-- Modelled from the spec: the category label constants
(`LENGTH`, `ACCUMULATED_PRECIPITATION`, ...) are imported by the source from
`homeassistant.const`, which is not part of the excerpt; the spec names the
seven categories and uses these exact labels as export keys. -/
def LENGTH : String := "length"

/-- Modelled from the spec: category label constant from `homeassistant.const`. -/
def ACCUMULATED_PRECIPITATION : String := "accumulated_precipitation"

/-- Modelled from the spec: category label constant from `homeassistant.const`. -/
def MASS : String := "mass"

/-- Modelled from the spec: category label constant from `homeassistant.const`. -/
def PRESSURE : String := "pressure"

/-- Modelled from the spec: category label constant from `homeassistant.const`. -/
def TEMPERATURE : String := "temperature"

/-- Modelled from the spec: category label constant from `homeassistant.const`. -/
def VOLUME : String := "volume"

/-- Modelled from the spec: category label constant from `homeassistant.const`. -/
def WIND_SPEED : String := "wind_speed"

/-- Modelled from the spec: `UNIT_NOT_RECOGNIZED_TEMPLATE` is imported from
`homeassistant.const` (absent from the excerpt); the spec renders each failure
as "unit <unit> is not a recognized <category> unit" with the unit quoted. -/
def UNIT_NOT_RECOGNIZED_TEMPLATE (unit unit_type : String) : String :=
  "unit \x27" ++ unit ++ "\x27 is not a recognized " ++ unit_type ++ " unit"

/-- Modelled from the spec: unit-symbol constant `TEMP_CELSIUS` from
`homeassistant.const`; the spec fixes the symbol forms to those of the
unit enumerations defined in the source (`TemperatureUnit.CELSIUS`). -/
def TEMP_CELSIUS : String := "°C"

/-- Modelled from the spec: `TEMP_FAHRENHEIT`, symbol of `TemperatureUnit.FAHRENHEIT`. -/
def TEMP_FAHRENHEIT : String := "°F"

/-- Modelled from the spec: `LENGTH_KILOMETERS`, symbol of `LengthUnit.KILOMETERS`. -/
def LENGTH_KILOMETERS : String := "km"

/-- Modelled from the spec: `LENGTH_MILLIMETERS`, symbol of `LengthUnit.MILLIMETERS`. -/
def LENGTH_MILLIMETERS : String := "mm"

/-- Modelled from the spec: `LENGTH_MILES`, symbol of `LengthUnit.MILES`. -/
def LENGTH_MILES : String := "mi"

/-- Modelled from the spec: `LENGTH_INCHES`, symbol of `LengthUnit.INCHES`. -/
def LENGTH_INCHES : String := "in"

/-- Modelled from the spec: `SPEED_METERS_PER_SECOND`, symbol of `SpeedUnit.METERS_PER_SECOND`. -/
def SPEED_METERS_PER_SECOND : String := "m/s"

/-- Modelled from the spec: `SPEED_MILES_PER_HOUR`, symbol of `SpeedUnit.MILES_PER_HOUR`. -/
def SPEED_MILES_PER_HOUR : String := "mph"

/-- Modelled from the spec: `VOLUME_LITERS`, symbol of `VolumeUnit.LITERS`. -/
def VOLUME_LITERS : String := "L"

/-- Modelled from the spec: `VOLUME_GALLONS`, symbol of `VolumeUnit.GALLONS`. -/
def VOLUME_GALLONS : String := "gal"

/-- Modelled from the spec: `MASS_GRAMS`, symbol of `MassUnit.GRAMS`. -/
def MASS_GRAMS : String := "g"

/-- Modelled from the spec: `MASS_POUNDS`, symbol of `MassUnit.POUNDS`. -/
def MASS_POUNDS : String := "lb"

/-- Modelled from the spec: `PRESSURE_PA`, symbol of `PressureUnit.PA`. -/
def PRESSURE_PA : String := "Pa"

/-- Modelled from the spec: `PRESSURE_PSI`, symbol of `PressureUnit.PSI`. -/
def PRESSURE_PSI : String := "psi"

/-- Source constant `_CONF_UNIT_SYSTEM_IMPERIAL`. -/
def _CONF_UNIT_SYSTEM_IMPERIAL : String := "imperial"

/-- Source constant `_CONF_UNIT_SYSTEM_METRIC`. -/
def _CONF_UNIT_SYSTEM_METRIC : String := "metric"

/-- Source constant `_CONF_UNIT_SYSTEM_US_CUSTOMARY`. -/
def _CONF_UNIT_SYSTEM_US_CUSTOMARY : String := "us_customary"

/-- `LENGTH_UNITS = {unit.value for unit in LengthUnit}`: the values of
`LengthUnit` (mm, cm, m, km, in, ft, yd, mi). -/
def LENGTH_UNITS : List String := ["mm", "cm", "m", "km", "in", "ft", "yd", "mi"]

/-- `MASS_UNITS`: the values of `MassUnit` (g, kg, mg, µg, oz, lb). -/
def MASS_UNITS : List String := ["g", "kg", "mg", "µg", "oz", "lb"]

/-- `PRESSURE_UNITS`: the values of `PressureUnit`. -/
def PRESSURE_UNITS : List String :=
  ["Pa", "hPa", "kPa", "bar", "cbar", "mbar", "mmHg", "inHg", "psi"]

/-- `VOLUME_UNITS`: the values of `VolumeUnit`. -/
def VOLUME_UNITS : List String := ["L", "mL", "m³", "ft³", "gal", "fl. oz."]

/-- `WIND_SPEED_UNITS`: the values of `SpeedUnit`. -/
def WIND_SPEED_UNITS : List String := ["ft/s", "m/s", "km/h", "kn", "mph"]

/-- `TEMPERATURE_UNITS`: the values of `TemperatureUnit`. -/
def TEMPERATURE_UNITS : List String := ["°C", "°F", "K"]

/-- `_is_valid_unit(unit, unit_type)`: check if the unit is valid for its type.
Membership in the category's unit set; unknown categories yield `false`. -/
def _is_valid_unit (unit unit_type : String) : Bool :=
  if unit_type = LENGTH then LENGTH_UNITS.contains unit
  else if unit_type = ACCUMULATED_PRECIPITATION then LENGTH_UNITS.contains unit
  else if unit_type = WIND_SPEED then WIND_SPEED_UNITS.contains unit
  else if unit_type = TEMPERATURE then TEMPERATURE_UNITS.contains unit
  else if unit_type = MASS then MASS_UNITS.contains unit
  else if unit_type = VOLUME then VOLUME_UNITS.contains unit
  else if unit_type = PRESSURE then PRESSURE_UNITS.contains unit
  else false

/-- Python `sep.join(parts)`: empty string on the empty list, otherwise the
head followed by `sep ++ part` for each remaining part. -/
def joinSep (sep : String) : List String → String
  | [] => ""
  | a :: as => as.foldl (fun acc x => acc ++ sep ++ x) a

/-- `UnitSystem`: a container for units of measure, storing a name tag and
one unit choice per category, exactly the attributes set in `__init__`. -/
structure UnitSystem where
  _name : String
  accumulated_precipitation_unit : String
  temperature_unit : String
  length_unit : String
  mass_unit : String
  pressure_unit : String
  volume_unit : String
  wind_speed_unit : String
deriving DecidableEq

/-- The `(unit, unit_type)` pairs of `UnitSystem.__init__` that fail
`_is_valid_unit`, in the source's tuple order: accumulated precipitation,
temperature, length, wind speed, volume, mass, pressure. -/
def invalid_pairs (temperature length wind_speed volume mass pressure
    accumulated_precipitation : String) : List (String × String) :=
  [(accumulated_precipitation, ACCUMULATED_PRECIPITATION),
   (temperature, TEMPERATURE),
   (length, LENGTH),
   (wind_speed, WIND_SPEED),
   (volume, VOLUME),
   (mass, MASS),
   (pressure, PRESSURE)].filter (fun q => ! _is_valid_unit q.1 q.2)

/-- `UnitSystem.__init__`: joins one `UNIT_NOT_RECOGNIZED_TEMPLATE` message
per invalid pair with ", "; raises `ValueError(errors)` when the joined
string is non-empty, otherwise stores the seven units and the name. -/
def UnitSystem.init (name temperature length wind_speed volume mass pressure
    accumulated_precipitation : String) : Except String UnitSystem :=
  let errors : String :=
    joinSep ", "
      ((invalid_pairs temperature length wind_speed volume mass pressure
          accumulated_precipitation).map
        (fun q => UNIT_NOT_RECOGNIZED_TEMPLATE q.1 q.2))
  if errors = "" then
    Except.ok
      { _name := name
        accumulated_precipitation_unit := accumulated_precipitation
        temperature_unit := temperature
        length_unit := length
        mass_unit := mass
        pressure_unit := pressure
        volume_unit := volume
        wind_speed_unit := wind_speed }
  else
    Except.error errors

/-- `METRIC_SYSTEM`: the canonical metric bundle, constructed at module level
from the metric unit constants. -/
def METRIC_SYSTEM : UnitSystem :=
  { _name := _CONF_UNIT_SYSTEM_METRIC
    accumulated_precipitation_unit := LENGTH_MILLIMETERS
    temperature_unit := TEMP_CELSIUS
    length_unit := LENGTH_KILOMETERS
    mass_unit := MASS_GRAMS
    pressure_unit := PRESSURE_PA
    volume_unit := VOLUME_LITERS
    wind_speed_unit := SPEED_METERS_PER_SECOND }

/-- `US_CUSTOMARY_SYSTEM`: the canonical US-customary bundle. -/
def US_CUSTOMARY_SYSTEM : UnitSystem :=
  { _name := _CONF_UNIT_SYSTEM_US_CUSTOMARY
    accumulated_precipitation_unit := LENGTH_INCHES
    temperature_unit := TEMP_FAHRENHEIT
    length_unit := LENGTH_MILES
    mass_unit := MASS_POUNDS
    pressure_unit := PRESSURE_PSI
    volume_unit := VOLUME_GALLONS
    wind_speed_unit := SPEED_MILES_PER_HOUR }

/-- `IMPERIAL_SYSTEM = US_CUSTOMARY_SYSTEM`: a deprecated alias for the same
object. -/
def IMPERIAL_SYSTEM : UnitSystem := US_CUSTOMARY_SYSTEM

/-- The module-level construction of `METRIC_SYSTEM` through
`UnitSystem.__init__` succeeds and yields exactly the canonical bundle. -/
theorem METRIC_SYSTEM_init_ok :
    UnitSystem.init _CONF_UNIT_SYSTEM_METRIC TEMP_CELSIUS LENGTH_KILOMETERS
      SPEED_METERS_PER_SECOND VOLUME_LITERS MASS_GRAMS PRESSURE_PA
      LENGTH_MILLIMETERS = Except.ok METRIC_SYSTEM := by rfl

/-- The module-level construction of `US_CUSTOMARY_SYSTEM` through
`UnitSystem.__init__` succeeds and yields exactly the canonical bundle. -/
theorem US_CUSTOMARY_SYSTEM_init_ok :
    UnitSystem.init _CONF_UNIT_SYSTEM_US_CUSTOMARY TEMP_FAHRENHEIT LENGTH_MILES
      SPEED_MILES_PER_HOUR VOLUME_GALLONS MASS_POUNDS PRESSURE_PSI
      LENGTH_INCHES = Except.ok US_CUSTOMARY_SYSTEM := by rfl

/-- A Python value at the conversion interface: integers, floats (modelled as
rationals, the conversion math itself being external), booleans, strings, or
`None`. -/
inductive PyVal where
  | int (n : Int)
  | float (q : Rat)
  | bool (b : Bool)
  | str (s : String)
  | none
deriving DecidableEq

/-- `isinstance(value, numbers.Number)`: true for `int`, `float` and `bool`
(Python `bool` is a subclass of `int`, which registers as a `Number`), false
for strings and `None`. -/
def PyVal.isNumber : PyVal → Bool
  | .int _ => true
  | .float _ => true
  | .bool _ => true
  | .str _ => false
  | .none => false

/-- Python `str(value)`, as used by the f-string in the type-mismatch error. -/
def PyVal.pystr : PyVal → String
  | .int n => toString n
  | .float q => toString q
  | .bool true => "True"
  | .bool false => "False"
  | .str s => s
  | .none => "None"

/-- The external converter capabilities consumed by the unit system: one
opaque `convert(value, from_unit, to_unit)` function per converter class
imported from `unit_conversion` (Distance, Temperature, Pressure, Speed,
Volume). -/
structure Converters where
  distance : PyVal → String → String → PyVal
  temperature : PyVal → String → String → PyVal
  pressure : PyVal → String → String → PyVal
  speed : PyVal → String → String → PyVal
  volume : PyVal → String → String → PyVal

/-- The type-mismatch error message raised by every conversion method. -/
def notNumericMsg (v : PyVal) : String := v.pystr ++ " is not a numeric value."

/-- `UnitSystem.temperature`: raise `TypeError` on a non-numeric value, else
delegate to `TemperatureConverter.convert(value, from_unit, self.temperature_unit)`. -/
def UnitSystem.temperature_conv (C : Converters) (s : UnitSystem) (v : PyVal)
    (from_unit : String) : Except String PyVal :=
  if v.isNumber then Except.ok (C.temperature v from_unit s.temperature_unit)
  else Except.error (notNumericMsg v)

/-- `UnitSystem.length`: raise `TypeError` on a non-numeric value, else
delegate to `DistanceConverter.convert(value, from_unit, self.length_unit)`. -/
def UnitSystem.length_conv (C : Converters) (s : UnitSystem) (v : PyVal)
    (from_unit : String) : Except String PyVal :=
  if v.isNumber then Except.ok (C.distance v from_unit s.length_unit)
  else Except.error (notNumericMsg v)

/-- `UnitSystem.accumulated_precipitation`: raise `TypeError` on a non-numeric
value, else delegate to
`DistanceConverter.convert(value, from_unit, self.accumulated_precipitation_unit)`. -/
def UnitSystem.accumulated_precipitation_conv (C : Converters) (s : UnitSystem)
    (v : PyVal) (from_unit : String) : Except String PyVal :=
  if v.isNumber then
    Except.ok (C.distance v from_unit s.accumulated_precipitation_unit)
  else Except.error (notNumericMsg v)

/-- `UnitSystem.pressure`: raise `TypeError` on a non-numeric value, else
delegate to `PressureConverter.convert(value, from_unit, self.pressure_unit)`. -/
def UnitSystem.pressure_conv (C : Converters) (s : UnitSystem) (v : PyVal)
    (from_unit : String) : Except String PyVal :=
  if v.isNumber then Except.ok (C.pressure v from_unit s.pressure_unit)
  else Except.error (notNumericMsg v)

/-- `UnitSystem.wind_speed`: raise `TypeError` on a non-numeric value, else
delegate to `SpeedConverter.convert(value, from_unit, self.wind_speed_unit)`. -/
def UnitSystem.wind_speed_conv (C : Converters) (s : UnitSystem) (v : PyVal)
    (from_unit : String) : Except String PyVal :=
  if v.isNumber then Except.ok (C.speed v from_unit s.wind_speed_unit)
  else Except.error (notNumericMsg v)

/-- `UnitSystem.volume`: raise `TypeError` on a non-numeric value, else
delegate to `VolumeConverter.convert(value, from_unit, self.volume_unit)`. -/
def UnitSystem.volume_conv (C : Converters) (s : UnitSystem) (v : PyVal)
    (from_unit : String) : Except String PyVal :=
  if v.isNumber then Except.ok (C.volume v from_unit s.volume_unit)
  else Except.error (notNumericMsg v)

/-- `UnitSystem.as_dict`: the insertion-ordered dictionary from category
label to the chosen unit, modelled as an association list. -/
def UnitSystem.as_dict (s : UnitSystem) : List (String × String) :=
  [(LENGTH, s.length_unit),
   (ACCUMULATED_PRECIPITATION, s.accumulated_precipitation_unit),
   (MASS, s.mass_unit),
   (PRESSURE, s.pressure_unit),
   (TEMPERATURE, s.temperature_unit),
   (VOLUME, s.volume_unit),
   (WIND_SPEED, s.wind_speed_unit)]

/-- A reference to a `UnitSystem` object, tracking Python object identity:
the canonical metric instance, the canonical US-customary instance (also
aliased as `IMPERIAL_SYSTEM`), or any other separately constructed bundle
(never identical to either canonical instance even if its fields agree). -/
inductive SystemObj where
  | metricObj
  | usObj
  | other (s : UnitSystem)
deriving DecidableEq

/-- The bundle an object reference points to. -/
def bundle : SystemObj → UnitSystem
  | .metricObj => METRIC_SYSTEM
  | .usObj => US_CUSTOMARY_SYSTEM
  | .other s => s

/-- Modelled from the spec: `report` from `homeassistant.helpers.frame`
(absent from the excerpt) is a fire-and-forget diagnostics sink; modelled as
appending the message to an explicit list of emitted notices. -/
def report (sink : List String) (message : String) : List String :=
  sink ++ [message]

/-- The deprecation notice emitted by the `name` property. -/
def nameDeprecationMsg : String :=
  "accesses the `name` property of the unit system. " ++
  "This is deprecated and will stop working in Home Assistant 2023.1. " ++
  "Please adjust to use instance check instead."

/-- The deprecation notice emitted by the `is_metric` property. -/
def isMetricDeprecationMsg : String :=
  "accesses the `is_metric` property of the unit system. " ++
  "This is deprecated and will stop working in Home Assistant 2023.1. " ++
  "Please adjust to use instance check instead."

/-- The `UnitSystem.name` property: reports a deprecation notice, then
returns "imperial" when `self is IMPERIAL_SYSTEM` (identity with the
canonical US-customary object) and the stored name otherwise. Returns the
value together with the updated notice sink. -/
def UnitSystem.name_prop (o : SystemObj) (sink : List String) :
    String × List String :=
  let sink2 := report sink nameDeprecationMsg
  match o with
  | .usObj => (_CONF_UNIT_SYSTEM_IMPERIAL, sink2)
  | o => ((bundle o)._name, sink2)

/-- The `UnitSystem.is_metric` property: reports a deprecation notice, then
returns `self is METRIC_SYSTEM` (identity with the canonical metric object). -/
def UnitSystem.is_metric_prop (o : SystemObj) (sink : List String) :
    Bool × List String :=
  let sink2 := report sink isMetricDeprecationMsg
  match o with
  | .metricObj => (true, sink2)
  | _ => (false, sink2)

/-- `get_unit_system(key)`: the US-customary object for the US-customary key,
the metric object for the metric key, otherwise `ValueError` naming the key. -/
def get_unit_system (key : String) : Except String SystemObj :=
  if key = _CONF_UNIT_SYSTEM_US_CUSTOMARY then Except.ok SystemObj.usObj
  else if key = _CONF_UNIT_SYSTEM_METRIC then Except.ok SystemObj.metricObj
  else Except.error ("`" ++ key ++ "` is not a valid unit system key")

/-- `_deprecated_unit_system(value)`: rewrite the deprecated "imperial"
spelling to "us_customary", pass everything else through. -/
def _deprecated_unit_system (value : String) : String :=
  if value = _CONF_UNIT_SYSTEM_IMPERIAL then _CONF_UNIT_SYSTEM_US_CUSTOMARY
  else value

/-- `validate_unit_system = vol.All(vol.Lower, _deprecated_unit_system,
vol.Any("metric", "us_customary"))`: lowercase the raw key, rewrite the
deprecated spelling, then accept exactly the two canonical spellings
(the `vol.Invalid` message itself is not load-bearing). -/
def validate_unit_system (value : String) : Except String String :=
  let lowered := value.toLower
  let converted := _deprecated_unit_system lowered
  if converted = _CONF_UNIT_SYSTEM_METRIC then Except.ok converted
  else if converted = _CONF_UNIT_SYSTEM_US_CUSTOMARY then Except.ok converted
  else Except.error "not a valid value"

/-- Folding `acc ++ sep ++ x` over a list never shortens the accumulator. -/
theorem length_le_foldl_append (sep : String) (as : List String) (acc : String) :
    acc.length ≤ (as.foldl (fun b x => b ++ sep ++ x) acc).length := by
  induction as generalizing acc with
  | nil => simp
  | cons a as ih =>
      calc acc.length ≤ (acc ++ sep ++ a).length := by
            simp [String.length_append]
            omega
        _ ≤ _ := ih (acc ++ sep ++ a)

/-- Every rendered invalid-unit message is non-empty. -/
theorem templ_length_pos (u c : String) :
    0 < (UNIT_NOT_RECOGNIZED_TEMPLATE u c).length := by
  simp [UNIT_NOT_RECOGNIZED_TEMPLATE, String.length_append]
  exact Or.inr (by decide)

/-- The joined error string is empty exactly when no pair is invalid. -/
theorem joinSep_map_templ_eq_empty_iff (l : List (String × String)) :
    joinSep ", " (l.map fun q => UNIT_NOT_RECOGNIZED_TEMPLATE q.1 q.2) = "" ↔
      l = [] := by
  cases l with
  | nil => simp [joinSep]
  | cons a as =>
      simp only [List.map_cons, joinSep, List.cons_ne_nil, iff_false]
      intro h
      have h1 := templ_length_pos a.1 a.2
      have h2 := length_le_foldl_append ", "
        (as.map fun q => UNIT_NOT_RECOGNIZED_TEMPLATE q.1 q.2)
        (UNIT_NOT_RECOGNIZED_TEMPLATE a.1 a.2)
      rw [h] at h2
      simp [String.length_empty] at h2
      omega

/-- The fold of `acc ++ sep ++ x` only extends the accumulator on the right. -/
theorem foldl_append_extends (sep : String) (as : List String) (acc : String) :
    ∃ t, as.foldl (fun b x => b ++ sep ++ x) acc = acc ++ t := by
  induction as generalizing acc with
  | nil => exact ⟨"", by simp⟩
  | cons a as ih =>
      obtain ⟨t, ht⟩ := ih (acc ++ sep ++ a)
      refine ⟨sep ++ a ++ t, ?_⟩
      simp only [List.foldl_cons]
      rw [ht]
      simp [String.append_assoc]

/-- A member of the folded list appears as an infix of the fold. -/
theorem mem_foldl_append_infix (sep x : String) (as : List String) :
    ∀ acc, x ∈ as → ∃ p q, as.foldl (fun b y => b ++ sep ++ y) acc = p ++ x ++ q := by
  induction as with
  | nil =>
      intro acc hx
      cases hx
  | cons a as ih =>
      intro acc hx
      rcases List.mem_cons.mp hx with h | h
      · subst h
        obtain ⟨t, ht⟩ := foldl_append_extends sep as (acc ++ sep ++ x)
        refine ⟨acc ++ sep, t, ?_⟩
        simp only [List.foldl_cons]
        rw [ht]
      · exact ih (acc ++ sep ++ a) h

/-- A member of a joined list appears as an infix of the join. -/
theorem mem_joinSep_infix (sep x : String) (l : List String) (hx : x ∈ l) :
    ∃ p q, joinSep sep l = p ++ x ++ q := by
  cases l with
  | nil => cases hx
  | cons a as =>
      rcases List.mem_cons.mp hx with h | h
      · subst h
        obtain ⟨t, ht⟩ := foldl_append_extends sep as x
        exact ⟨"", t, by simp [joinSep, ht, String.empty_append]⟩
      · exact mem_foldl_append_infix sep x as a h

/-- No pair is invalid exactly when all seven supplied units pass
`_is_valid_unit` for their category. -/
theorem invalid_pairs_eq_nil_iff (t l w v m p a : String) :
    invalid_pairs t l w v m p a = [] ↔
      (_is_valid_unit a ACCUMULATED_PRECIPITATION = true ∧
       _is_valid_unit t TEMPERATURE = true ∧
       _is_valid_unit l LENGTH = true ∧
       _is_valid_unit w WIND_SPEED = true ∧
       _is_valid_unit v VOLUME = true ∧
       _is_valid_unit m MASS = true ∧
       _is_valid_unit p PRESSURE = true) := by
  simp [invalid_pairs, List.filter_eq_nil_iff]

/-- Identity converters, used to instantiate theorems about the conversion
methods at a concrete converter record. -/
def trivialConverters : Converters :=
  { distance := fun v _ _ => v
    temperature := fun v _ _ => v
    pressure := fun v _ _ => v
    speed := fun v _ _ => v
    volume := fun v _ _ => v }

/-- Claim C1: `UnitSystem` construction succeeds iff every one of the seven
supplied units belongs to its category's valid set; when one or more units
are invalid, construction fails with a single aggregated error in which every
invalid (unit, category) pair's rendered message occurs, and no bundle is
produced. -/
theorem spec_c1_construction_validation (n t l w v m p a : String) :
    ((∃ s, UnitSystem.init n t l w v m p a = Except.ok s) ↔
      (_is_valid_unit a ACCUMULATED_PRECIPITATION = true ∧
       _is_valid_unit t TEMPERATURE = true ∧
       _is_valid_unit l LENGTH = true ∧
       _is_valid_unit w WIND_SPEED = true ∧
       _is_valid_unit v VOLUME = true ∧
       _is_valid_unit m MASS = true ∧
       _is_valid_unit p PRESSURE = true)) ∧
    (∀ e, UnitSystem.init n t l w v m p a = Except.error e →
      ∀ u c, (u, c) ∈ invalid_pairs t l w v m p a →
        ∃ pre post, e = pre ++ UNIT_NOT_RECOGNIZED_TEMPLATE u c ++ post) := by
  constructor
  · rw [← invalid_pairs_eq_nil_iff]
    constructor
    · rintro ⟨s, hs⟩
      by_contra hne
      have herr : joinSep ", " ((invalid_pairs t l w v m p a).map
          fun q => UNIT_NOT_RECOGNIZED_TEMPLATE q.1 q.2) ≠ "" := by
        intro h0
        exact hne ((joinSep_map_templ_eq_empty_iff _).mp h0)
      simp only [UnitSystem.init, herr, if_false, reduceIte] at hs
      exact Except.noConfusion hs
    · intro hnil
      have hjoin : joinSep ", " ((invalid_pairs t l w v m p a).map
          fun q => UNIT_NOT_RECOGNIZED_TEMPLATE q.1 q.2) = "" :=
        (joinSep_map_templ_eq_empty_iff _).mpr hnil
      exact ⟨{ _name := n
               accumulated_precipitation_unit := a
               temperature_unit := t
               length_unit := l
               mass_unit := m
               pressure_unit := p
               volume_unit := v
               wind_speed_unit := w },
        by simp only [UnitSystem.init, hjoin, reduceIte]⟩
  · intro e he u c hmem
    have hmem2 : UNIT_NOT_RECOGNIZED_TEMPLATE u c ∈
        (invalid_pairs t l w v m p a).map
          (fun q => UNIT_NOT_RECOGNIZED_TEMPLATE q.1 q.2) :=
      List.mem_map_of_mem _ hmem
    have he2 : e = joinSep ", " ((invalid_pairs t l w v m p a).map
        fun q => UNIT_NOT_RECOGNIZED_TEMPLATE q.1 q.2) := by
      simp only [UnitSystem.init] at he
      split at he
      · cases he
      · injection he with h
        exact h.symm
    rw [he2]
    exact mem_joinSep_infix _ _ _ hmem2

/-- Witness for C1: a construction with two invalid units ("bogus"
temperature and "nope" length, all other units metric) fails, and the
aggregated error mentions the invalid temperature pair. -/
theorem spec_c1_construction_validation_witness :
    ∃ pre post,
      "unit \x27bogus\x27 is not a recognized temperature unit, unit \x27nope\x27 is not a recognized length unit" =
        pre ++ UNIT_NOT_RECOGNIZED_TEMPLATE "bogus" TEMPERATURE ++ post :=
  (spec_c1_construction_validation "x" "bogus" "nope" "m/s" "L" "g" "Pa" "mm").2
    _ (by rfl) "bogus" TEMPERATURE (by decide)

/-- Claim C9: the aggregated construction error is the ", "-join of the
rendered messages of the invalid pairs taken in the fixed category order
accumulated precipitation, temperature, length, wind speed, volume, mass,
pressure, regardless of which arguments are invalid. -/
theorem spec_c9_error_order (n t l w v m p a e : String)
    (h : UnitSystem.init n t l w v m p a = Except.error e) :
    e = joinSep ", " ((invalid_pairs t l w v m p a).map
        (fun q => UNIT_NOT_RECOGNIZED_TEMPLATE q.1 q.2)) ∧
    invalid_pairs t l w v m p a =
      [(a, ACCUMULATED_PRECIPITATION),
       (t, TEMPERATURE),
       (l, LENGTH),
       (w, WIND_SPEED),
       (v, VOLUME),
       (m, MASS),
       (p, PRESSURE)].filter (fun q => ! _is_valid_unit q.1 q.2) := by
  refine ⟨?_, rfl⟩
  simp only [UnitSystem.init] at h
  split at h
  · cases h
  · injection h with h2
    exact h2.symm

/-- Witness for C9: with invalid temperature "Bad" and invalid length "nope"
the error renders the temperature message first, then the length message,
matching the fixed order. -/
theorem spec_c9_error_order_witness :
    "unit \x27Bad\x27 is not a recognized temperature unit, unit \x27nope\x27 is not a recognized length unit" =
      joinSep ", " ((invalid_pairs "Bad" "nope" "m/s" "L" "g" "Pa" "mm").map
        (fun q => UNIT_NOT_RECOGNIZED_TEMPLATE q.1 q.2)) :=
  (spec_c9_error_order "x" "Bad" "nope" "m/s" "L" "g" "Pa" "mm" _ (by rfl)).1

/-- Claim C2: every conversion method rejects a non-numeric value with a
type-mismatch error naming the offending value, with a result independent of
the converter record (the converter is never consulted); on a numeric value
it returns the converter's result for (value, from_unit, the bundle's
configured unit for that category), with no unit-validity check on
`from_unit`. -/
theorem spec_c2_conversion_guard (C D : Converters) (s : UnitSystem)
    (v : PyVal) (fu : String) :
    (v.isNumber = false →
      (s.temperature_conv C v fu =
          Except.error (v.pystr ++ " is not a numeric value.") ∧
        s.temperature_conv C v fu = s.temperature_conv D v fu) ∧
      (s.length_conv C v fu =
          Except.error (v.pystr ++ " is not a numeric value.") ∧
        s.length_conv C v fu = s.length_conv D v fu) ∧
      (s.accumulated_precipitation_conv C v fu =
          Except.error (v.pystr ++ " is not a numeric value.") ∧
        s.accumulated_precipitation_conv C v fu =
          s.accumulated_precipitation_conv D v fu) ∧
      (s.pressure_conv C v fu =
          Except.error (v.pystr ++ " is not a numeric value.") ∧
        s.pressure_conv C v fu = s.pressure_conv D v fu) ∧
      (s.wind_speed_conv C v fu =
          Except.error (v.pystr ++ " is not a numeric value.") ∧
        s.wind_speed_conv C v fu = s.wind_speed_conv D v fu) ∧
      (s.volume_conv C v fu =
          Except.error (v.pystr ++ " is not a numeric value.") ∧
        s.volume_conv C v fu = s.volume_conv D v fu)) ∧
    (v.isNumber = true →
      s.temperature_conv C v fu =
        Except.ok (C.temperature v fu s.temperature_unit) ∧
      s.length_conv C v fu = Except.ok (C.distance v fu s.length_unit) ∧
      s.accumulated_precipitation_conv C v fu =
        Except.ok (C.distance v fu s.accumulated_precipitation_unit) ∧
      s.pressure_conv C v fu = Except.ok (C.pressure v fu s.pressure_unit) ∧
      s.wind_speed_conv C v fu = Except.ok (C.speed v fu s.wind_speed_unit) ∧
      s.volume_conv C v fu = Except.ok (C.volume v fu s.volume_unit)) := by
  constructor
  · intro h
    simp [UnitSystem.temperature_conv, UnitSystem.length_conv,
      UnitSystem.accumulated_precipitation_conv, UnitSystem.pressure_conv,
      UnitSystem.wind_speed_conv, UnitSystem.volume_conv, notNumericMsg, h]
  · intro h
    simp [UnitSystem.temperature_conv, UnitSystem.length_conv,
      UnitSystem.accumulated_precipitation_conv, UnitSystem.pressure_conv,
      UnitSystem.wind_speed_conv, UnitSystem.volume_conv, h]

/-- Witness for C2: converting the text string "x" with the metric bundle
fails with the type-mismatch error naming "x". -/
theorem spec_c2_conversion_guard_witness :
    METRIC_SYSTEM.temperature_conv trivialConverters (PyVal.str "x") "°F" =
      Except.error ((PyVal.str "x").pystr ++ " is not a numeric value.") :=
  ((spec_c2_conversion_guard trivialConverters trivialConverters METRIC_SYSTEM
    (PyVal.str "x") "°F").1 rfl).1.1

/-- Claim C7: for every converter record, bundle, value and source unit, the
accumulated-precipitation conversion method behaves exactly like the length
conversion method run with the bundle's accumulated-precipitation unit as the
target unit: both delegate to the same distance converter. -/
theorem spec_c7_precipitation_uses_distance (C : Converters) (s : UnitSystem)
    (v : PyVal) (fu : String) :
    s.accumulated_precipitation_conv C v fu =
      UnitSystem.length_conv C
        { s with length_unit := s.accumulated_precipitation_unit } v fu := by
  cases hv : v.isNumber <;>
    simp [UnitSystem.accumulated_precipitation_conv, UnitSystem.length_conv, hv]

/-- Claim C10: booleans count as numeric at the conversion interface: every
conversion method forwards a boolean value to the underlying converter
instead of raising the type-mismatch error (Python `bool` is an instance of
the numeric type). -/
theorem spec_c10_bool_is_numeric (C : Converters) (s : UnitSystem) (b : Bool)
    (fu : String) :
    s.temperature_conv C (PyVal.bool b) fu =
      Except.ok (C.temperature (PyVal.bool b) fu s.temperature_unit) ∧
    s.length_conv C (PyVal.bool b) fu =
      Except.ok (C.distance (PyVal.bool b) fu s.length_unit) ∧
    s.accumulated_precipitation_conv C (PyVal.bool b) fu =
      Except.ok (C.distance (PyVal.bool b) fu s.accumulated_precipitation_unit) ∧
    s.pressure_conv C (PyVal.bool b) fu =
      Except.ok (C.pressure (PyVal.bool b) fu s.pressure_unit) ∧
    s.wind_speed_conv C (PyVal.bool b) fu =
      Except.ok (C.speed (PyVal.bool b) fu s.wind_speed_unit) ∧
    s.volume_conv C (PyVal.bool b) fu =
      Except.ok (C.volume (PyVal.bool b) fu s.volume_unit) := by
  simp [UnitSystem.temperature_conv, UnitSystem.length_conv,
    UnitSystem.accumulated_precipitation_conv, UnitSystem.pressure_conv,
    UnitSystem.wind_speed_conv, UnitSystem.volume_conv, PyVal.isNumber]

/-- Claim C8: a unit is valid for the accumulated-precipitation category
exactly when it is valid for the length category: precipitation reuses the
length unit set while being validated as a distinct category. -/
theorem spec_c8_precipitation_reuses_length_units (u : String) :
    _is_valid_unit u ACCUMULATED_PRECIPITATION = _is_valid_unit u LENGTH := by
  rfl

/-- Claim C3: `get_unit_system` returns the canonical metric object for
"metric", the canonical US-customary object for "us_customary", and fails
with an invalid-key error naming the key for every other input, including
"imperial"; the returned objects are always the same canonical instances. -/
theorem spec_c3_get_unit_system (key : String) :
    get_unit_system _CONF_UNIT_SYSTEM_METRIC = Except.ok SystemObj.metricObj ∧
    get_unit_system _CONF_UNIT_SYSTEM_US_CUSTOMARY =
      Except.ok SystemObj.usObj ∧
    bundle SystemObj.metricObj = METRIC_SYSTEM ∧
    bundle SystemObj.usObj = US_CUSTOMARY_SYSTEM ∧
    get_unit_system _CONF_UNIT_SYSTEM_IMPERIAL =
      Except.error ("`" ++ _CONF_UNIT_SYSTEM_IMPERIAL ++
        "` is not a valid unit system key") ∧
    (key ≠ _CONF_UNIT_SYSTEM_METRIC ∧ key ≠ _CONF_UNIT_SYSTEM_US_CUSTOMARY →
      get_unit_system key =
        Except.error ("`" ++ key ++ "` is not a valid unit system key")) := by
  refine ⟨rfl, rfl, rfl, rfl, rfl, ?_⟩
  rintro ⟨h1, h2⟩
  simp [get_unit_system, h1, h2]

/-- Witness for C3: looking up the key "kelvin" fails with the invalid-key
error naming "kelvin". -/
theorem spec_c3_get_unit_system_witness :
    get_unit_system "kelvin" =
      Except.error ("`" ++ "kelvin" ++ "` is not a valid unit system key") :=
  (spec_c3_get_unit_system "kelvin").2.2.2.2.2 ⟨by decide, by decide⟩

/-- Claim C4: `validate_unit_system` is case-insensitive, rewrites the
deprecated "imperial" spelling (any letter case) to "us_customary", accepts
exactly the two canonical spellings after lowercasing and rewriting, and
fails validation for every other value. -/
theorem spec_c4_validate_unit_system (v : String) :
    (v.toLower = _CONF_UNIT_SYSTEM_IMPERIAL →
      validate_unit_system v = Except.ok _CONF_UNIT_SYSTEM_US_CUSTOMARY) ∧
    (v.toLower = _CONF_UNIT_SYSTEM_METRIC →
      validate_unit_system v = Except.ok _CONF_UNIT_SYSTEM_METRIC) ∧
    (v.toLower = _CONF_UNIT_SYSTEM_US_CUSTOMARY →
      validate_unit_system v = Except.ok _CONF_UNIT_SYSTEM_US_CUSTOMARY) ∧
    (v.toLower ≠ _CONF_UNIT_SYSTEM_IMPERIAL ∧
      v.toLower ≠ _CONF_UNIT_SYSTEM_METRIC ∧
      v.toLower ≠ _CONF_UNIT_SYSTEM_US_CUSTOMARY →
      validate_unit_system v = Except.error "not a valid value") := by
  refine ⟨?_, ?_, ?_, ?_⟩
  · intro h
    simp [validate_unit_system, _deprecated_unit_system, h,
      _CONF_UNIT_SYSTEM_IMPERIAL, _CONF_UNIT_SYSTEM_METRIC,
      _CONF_UNIT_SYSTEM_US_CUSTOMARY]
  · intro h
    simp [validate_unit_system, _deprecated_unit_system, h,
      _CONF_UNIT_SYSTEM_IMPERIAL, _CONF_UNIT_SYSTEM_METRIC,
      _CONF_UNIT_SYSTEM_US_CUSTOMARY]
  · intro h
    simp [validate_unit_system, _deprecated_unit_system, h,
      _CONF_UNIT_SYSTEM_IMPERIAL, _CONF_UNIT_SYSTEM_METRIC,
      _CONF_UNIT_SYSTEM_US_CUSTOMARY]
  · rintro ⟨h1, h2, h3⟩
    simp [validate_unit_system, _deprecated_unit_system, h1, h2, h3]

/-- Witness for C4: "IMPERIAL" is accepted case-insensitively and rewritten
to "us_customary", and "kelvin-system" is rejected. -/
theorem spec_c4_validate_unit_system_witness :
    validate_unit_system "IMPERIAL" =
      Except.ok _CONF_UNIT_SYSTEM_US_CUSTOMARY ∧
    validate_unit_system "kelvin-system" =
      Except.error "not a valid value" :=
  ⟨(spec_c4_validate_unit_system "IMPERIAL").1
     (by simp only [String.toLower, String.map_eq]; decide),
   (spec_c4_validate_unit_system "kelvin-system").2.2.2
     ⟨by simp only [String.toLower, String.map_eq]; decide,
      by simp only [String.toLower, String.map_eq]; decide,
      by simp only [String.toLower, String.map_eq]; decide⟩⟩

/-- Claim C5: the deprecated `name` accessor returns "imperial" on the
canonical US-customary object and the stored name on any other object; the
deprecated `is_metric` accessor returns true exactly on the canonical metric
object; each access appends exactly one deprecation notice to the
diagnostics sink and the sink never alters the returned value. -/
theorem spec_c5_deprecated_accessors (o : SystemObj) (sink : List String) :
    (UnitSystem.name_prop SystemObj.usObj sink).1 =
      _CONF_UNIT_SYSTEM_IMPERIAL ∧
    (o ≠ SystemObj.usObj →
      (UnitSystem.name_prop o sink).1 = (bundle o)._name) ∧
    ((UnitSystem.is_metric_prop o sink).1 = true ↔ o = SystemObj.metricObj) ∧
    (UnitSystem.name_prop o sink).2 = sink ++ [nameDeprecationMsg] ∧
    (UnitSystem.is_metric_prop o sink).2 = sink ++ [isMetricDeprecationMsg] ∧
    (UnitSystem.name_prop o sink).2.length = sink.length + 1 ∧
    (UnitSystem.is_metric_prop o sink).2.length = sink.length + 1 ∧
    (UnitSystem.name_prop o sink).1 = (UnitSystem.name_prop o []).1 ∧
    (UnitSystem.is_metric_prop o sink).1 = (UnitSystem.is_metric_prop o []).1 := by
  cases o <;>
    simp [UnitSystem.name_prop, UnitSystem.is_metric_prop, report]

/-- Witness for C5: a freshly constructed bundle with the same fields as the
canonical US-customary instance is not that instance, so its `name` accessor
returns its stored name rather than "imperial". -/
theorem spec_c5_deprecated_accessors_witness :
    (UnitSystem.name_prop (SystemObj.other US_CUSTOMARY_SYSTEM) []).1 =
      (bundle (SystemObj.other US_CUSTOMARY_SYSTEM))._name :=
  (spec_c5_deprecated_accessors (SystemObj.other US_CUSTOMARY_SYSTEM) []).2.1
    (by decide)

/-- Claim C6: `as_dict` returns a mapping with exactly the seven category
keys, each mapped to the bundle's chosen unit for that category; on the
canonical metric bundle the mapping is length→km, accumulated
precipitation→mm, mass→g, pressure→Pa, temperature→°C, volume→L, wind
speed→m/s. -/
theorem spec_c6_as_dict (s : UnitSystem) :
    s.as_dict.map Prod.fst =
      [LENGTH, ACCUMULATED_PRECIPITATION, MASS, PRESSURE, TEMPERATURE,
       VOLUME, WIND_SPEED] ∧
    (LENGTH, s.length_unit) ∈ s.as_dict ∧
    (ACCUMULATED_PRECIPITATION, s.accumulated_precipitation_unit) ∈ s.as_dict ∧
    (MASS, s.mass_unit) ∈ s.as_dict ∧
    (PRESSURE, s.pressure_unit) ∈ s.as_dict ∧
    (TEMPERATURE, s.temperature_unit) ∈ s.as_dict ∧
    (VOLUME, s.volume_unit) ∈ s.as_dict ∧
    (WIND_SPEED, s.wind_speed_unit) ∈ s.as_dict ∧
    METRIC_SYSTEM.as_dict =
      [(LENGTH, LENGTH_KILOMETERS),
       (ACCUMULATED_PRECIPITATION, LENGTH_MILLIMETERS),
       (MASS, MASS_GRAMS),
       (PRESSURE, PRESSURE_PA),
       (TEMPERATURE, TEMP_CELSIUS),
       (VOLUME, VOLUME_LITERS),
       (WIND_SPEED, SPEED_METERS_PER_SECOND)] := by
  simp [UnitSystem.as_dict]
  exact ⟨rfl, rfl, rfl, rfl, rfl, rfl, rfl⟩
